import Mathlib

/-!
Formal model of the Cog serverless script runner (src/server.js).

The definitions below are a shallow embedding of the server's script
registry, executor (runScript), cron trigger, HTTP handlers and the
startup reload loop.  Stateful event-driven code (child-process stream
and exit listeners, the timeout timer) is modelled as an explicit state
machine driven by a list of events; filesystem writes are recorded as a
list of (path, content) pairs.
-/

/-- Does the first character list start with the second one? -/
def charsStartWith : List Char → List Char → Bool
  | _, [] => true
  | [], _ :: _ => false
  | h :: t, n :: ns => h == n && charsStartWith t ns

/-- Contiguous-sublist search on character lists. -/
def charsContain : List Char → List Char → Bool
  | [], needle => needle.isEmpty
  | h :: t, needle => charsStartWith (h :: t) needle || charsContain t needle

/-- JS String.prototype.includes, as used at line 72 of server.js
(output.includes of the sentinel). -/
def jsIncludes (s sub : String) : Bool := charsContain s.data sub.data

/-- JS string coercion of a nullable string: String(null) is the four-letter
string null. -/
def jsShow : Option String → String
  | none => "null"
  | some s => s

/-- JS logical-or on strings: the empty string is the only falsy string. -/
def jsOrString (a b : String) : String := if a = "" then b else a

/-- Line 73 of server.js: the expression written to the child's stdin,
message + newline, or a bare newline if that concatenation were falsy. -/
def stdinPayload (message : Option String) : String :=
  jsOrString (jsShow message ++ "\n") "\n"

/-- A script descriptor, as assembled at lines 150-162 of server.js and
kept in runtime.scripts. -/
structure Script where
  id : String
  created : Nat
  updated : Nat
  name : String
  runtime : String
  webhook : Bool
  cron : Bool
  cronSchedule : String
  entrypoint : Option String
  timeout : Nat
deriving DecidableEq

/-- One element of the context array handed to runScript.  The HTTP
handlers push plain string tokens; addCronTrigger (line 31) passes a
nested array of strings. -/
inductive SpawnArg where
  | str (s : String)
  | strs (xs : List String)
deriving DecidableEq

/-- JS Array.prototype.join with a comma separator. -/
def joinWithCommas : List String → String
  | [] => ""
  | [x] => x
  | x :: y :: rest => x ++ "," ++ joinWithCommas (y :: rest)

/-- Node coerces every spawn argument with ToString before handing it to
the OS; for an array value that is a comma join of its elements. -/
def spawnArgToString : SpawnArg → String
  | .str s => s
  | .strs xs => joinWithCommas xs

/-- Line 31 of server.js: the context passed on each cron fire.  Note the
doubled brackets in the source text: the context is a one-element array
whose element is itself a one-element array holding the time token. -/
def cronFireContext (t : Nat) : List SpawnArg :=
  [SpawnArg.strs ["--time=" ++ toString t]]

/-- Line 31 of server.js: the message argument passed on a cron fire is
null. -/
def cronFireMessage : Option String := none

/-- Line 47 of server.js: the entrypoint path template (the cwd portion
added by path.resolve is elided; it is a constant and plays no role). -/
def scriptFilePath (s : Script) : String :=
  "./data/scripts/" ++ s.id ++ "/" ++ jsShow s.entrypoint

/-- Line 56 of server.js: the argument vector handed to spawn, the
entrypoint path followed by the spread context. -/
def spawnArgs (file : String) (context : List SpawnArg) : List SpawnArg :=
  SpawnArg.str file :: context

/-- How the start of runScript terminates: with a spawned child, or with
the TypeError thrown at line 60 when the attachment of the exit listener
dereferences a spawnedProcess that is still null because no runtime
branch matched at line 55. -/
inductive StartOutcome where
  | spawned (cmd : String) (args : List SpawnArg)
  | thrownTypeError
deriving DecidableEq

/-- Lines 50-64 of server.js: the runtime dispatch.  Only the nodejs
branch assigns spawnedProcess; any other runtime leaves it null and the
subsequent listener attachment throws an uncaught TypeError. -/
def runScriptSpawn (s : Script) (context : List SpawnArg) : StartOutcome :=
  if s.runtime == "nodejs" then
    .spawned "node" (spawnArgs (scriptFilePath s) context)
  else
    .thrownTypeError

/-- The event names runScript subscribes on the spawned ChildProcess
object itself (line 60): only exit.  In particular there is no listener
for the error event a failed spawn emits. -/
def runScriptProcessChannels : List String := ["exit"]

/-- Whether runScript attaches any handler for the child's error event. -/
def handlesErrorEvent : Bool := runScriptProcessChannels.contains "error"

/-- The observable state of one runScript invocation: the flags of lines
50-52, the stdin writes performed by the stdout listener, the output
accumulated by the run endpoint's stream listeners (lines 318-328), the
response flag of the run endpoint's exit listener (line 330), and
bookkeeping for the timeout timer of lines 78-92. -/
structure ExecState where
  spawnedProcessRunning : Bool
  processKilled : Bool
  processChannelsAttached : Bool
  spawnedProcessMessageSent : Bool
  stdinWrites : List String
  consoleOutput : String
  consoleError : String
  responseSent : Bool
  killCalls : Nat
  warnedTimeout : Bool
  exitedReal : Bool

/-- The state right after a successful spawn (lines 50-52). -/
def execInit : ExecState :=
  { spawnedProcessRunning := true
    processKilled := false
    processChannelsAttached := true
    spawnedProcessMessageSent := false
    stdinWrites := []
    consoleOutput := ""
    consoleError := ""
    responseSent := false
    killCalls := 0
    warnedTimeout := false
    exitedReal := false }

/-- Events delivered to one invocation by the event loop: stdout data,
stderr data, process exit, and the firing of the per-invocation timeout
timer. -/
inductive ExecEvent where
  | stdoutData (chunk : String)
  | stderrData (chunk : String)
  | exit
  | timerFire

/-- One event-loop step of an invocation.  runMode records whether the
run endpoint's extra stream and exit listeners (lines 318-332) are
attached.  Key source facts embedded here: the stdout handler of lines
66-75 writes to stdin on EVERY chunk containing the sentinel and never
consults or sets spawnedProcessMessageSent; removeAllListeners at lines
86-87 is called on the ChildProcess object, so it detaches the exit
listeners but not the stdout and stderr stream listeners; the kill guard
at line 84 tests the killed flag, not whether the process still runs;
and no clearTimeout exists anywhere, so the timer event is always
eventually delivered. -/
def execStep (runMode : Bool) (message : Option String) (st : ExecState) :
    ExecEvent → ExecState
  | .stdoutData chunk =>
    let st1 :=
      if jsIncludes chunk "message:" then
        { st with stdinWrites := st.stdinWrites ++ [stdinPayload message] }
      else st
    if runMode then { st1 with consoleOutput := st1.consoleOutput ++ chunk } else st1
  | .stderrData chunk =>
    if runMode then
      { st with consoleOutput := st.consoleOutput ++ chunk
                consoleError := st.consoleError ++ chunk }
    else st
  | .exit =>
    let st0 := { st with exitedReal := true }
    if st0.processChannelsAttached then
      let st1 := { st0 with spawnedProcessRunning := false }
      if runMode then { st1 with responseSent := true } else st1
    else st0
  | .timerFire =>
    let st1 :=
      if st.spawnedProcessRunning then { st with warnedTimeout := true } else st
    if !st1.processKilled then
      { st1 with processChannelsAttached := false
                 killCalls := st1.killCalls + 1
                 processKilled := true }
    else st1

/-- Run one invocation over a list of delivered events. -/
def execRun (runMode : Bool) (message : Option String)
    (events : List ExecEvent) : ExecState :=
  events.foldl (execStep runMode message) execInit

/-- Lines 280-282 of server.js: each query pair becomes one token. -/
def queryToContext (q : List (String × String)) : List SpawnArg :=
  q.map (fun kv => SpawnArg.str ("--" ++ kv.1 ++ "=\x22" ++ kv.2 ++ "\x22"))

/-- The observable effect of one HTTP trigger request: every response the
handler attempts, in order (only the first actually reaches the client),
and every runScript invocation it performs. -/
structure HandlerOutcome where
  responses : List (Nat × String)
  ran : List (String × List SpawnArg × Option String)

/-- Lines 258-287 of server.js: the trigger endpoint.  The unknown-id
branch returns; the webhook-disabled branch sends a 400 response but
does NOT return, so control falls through to the runScript call and to a
second (failing) response attempt. -/
def triggerHandler (scripts : List Script) (sid : String)
    (query : List (String × String)) (bodyJson : String) : HandlerOutcome :=
  match scripts.find? (fun i => i.id == sid) with
  | none => ⟨[(404, "The requested script could not be found.")], []⟩
  | some s =>
    let refusals : List (Nat × String) :=
      if s.webhook then []
      else [(400, "The requested script does not have webhooks enabled.")]
    ⟨refusals ++ [(200, "Script execution has been triggered.")],
     [(s.id, queryToContext query, some bodyJson)]⟩

/-- Line 228 of server.js: the path of the entrypoint file rewritten by
the update endpoint. -/
def entrypointPath (s : Script) : String :=
  "./data/scripts/" ++ s.id ++ "/" ++ jsShow s.entrypoint

/-- The observable effect of one update request: HTTP status, response
body, the file writes performed, and the (unchanged) registry. -/
structure UpdateOutcome where
  status : Nat
  body : String
  writes : List (String × String)
  scripts : List Script
deriving DecidableEq

/-- Lines 218-231 of server.js: the update endpoint.  It writes the new
code to the entrypoint file and answers with the id; it touches neither
the in-memory descriptor nor the .cog descriptor file. -/
def updateScriptHandler (scripts : List Script) (sid : String)
    (code : String) : UpdateOutcome :=
  match scripts.find? (fun i => i.id == sid) with
  | none => ⟨404, "404", [], scripts⟩
  | some script => ⟨200, script.id, [(entrypointPath script, code)], scripts⟩

/-- The fields of the POST body read by the registration endpoint, plus
whatever timeout value a client may have supplied (the handler never
reads one). -/
structure NewScriptBody where
  name : String
  runtime : String
  webhook : Bool
  cron : Bool
  cronSchedule : String
  code : String
  timeout : Option Nat

/-- Lines 150-169 of server.js: the descriptor built by the registration
endpoint.  The timeout field is the literal 30000; the entrypoint starts
null and becomes app.js for the nodejs runtime. -/
def newScriptEntry (now : Nat) (id : String) (body : NewScriptBody) : Script :=
  let base : Script :=
    { id := id
      created := now
      updated := now
      name := body.name
      runtime := body.runtime
      webhook := body.webhook
      cron := body.cron
      cronSchedule := body.cronSchedule
      entrypoint := none
      timeout := 30000 }
  if body.runtime == "nodejs" then { base with entrypoint := some "app.js" } else base

/-- One stored script directory as seen by the reload loop: none means
the .cog descriptor file is missing; some none means the file exists but
JSON.parse throws on it; some (some s) means it parses to s. -/
structure StoredDir where
  dirName : String
  cogContent : Option (Option Script)

/-- The observable effect of the startup reload loop: descriptors pushed
into runtime.scripts, ids handed to addCronTrigger, whether the loop ran
to completion, and the directories skipped for a missing descriptor. -/
structure ReloadOutcome where
  loaded : List Script
  scheduled : List String
  completed : Bool
  skippedMissing : List String
deriving DecidableEq

/-- Lines 349-369 of server.js: the reload loop inside the listen
callback.  A missing .cog file is logged and skipped; an unparseable one
makes JSON.parse throw, which aborts the loop (and everything after it
in the callback), leaving later scripts unloaded. -/
def reloadScripts : List StoredDir → ReloadOutcome
  | [] => ⟨[], [], true, []⟩
  | ⟨nm, none⟩ :: rest =>
    let r := reloadScripts rest
    ⟨r.loaded, r.scheduled, r.completed, nm :: r.skippedMissing⟩
  | ⟨_, some none⟩ :: _ => ⟨[], [], false, []⟩
  | ⟨_, some (some s)⟩ :: rest =>
    let r := reloadScripts rest
    ⟨s :: r.loaded, (if s.cron then [s.id] else []) ++ r.scheduled,
     r.completed, r.skippedMissing⟩

/-- The descriptors a fully successful pass over the directories would
load, in order. -/
def parsedScripts : List StoredDir → List Script
  | [] => []
  | ⟨_, some (some s)⟩ :: rest => s :: parsedScripts rest
  | _ :: rest => parsedScripts rest

/-- The ids a fully successful pass would hand to the cron scheduler. -/
def scheduledOnLoad : List StoredDir → List String
  | [] => []
  | ⟨_, some (some s)⟩ :: rest =>
    (if s.cron then [s.id] else []) ++ scheduledOnLoad rest
  | _ :: rest => scheduledOnLoad rest

/-- The directory names a fully successful pass would skip for a missing
descriptor file. -/
def missingNames : List StoredDir → List String
  | [] => []
  | ⟨nm, none⟩ :: rest => nm :: missingNames rest
  | ⟨_, some _⟩ :: rest => missingNames rest

/-- A registered nodejs script with webhooks disabled, used as a concrete
test subject. -/
def sampleScript : Script :=
  { id := "s1"
    created := 100
    updated := 100
    name := "demo"
    runtime := "nodejs"
    webhook := false
    cron := false
    cronSchedule := ""
    entrypoint := some "app.js"
    timeout := 30000 }

/-- A descriptor whose runtime matches no launcher branch. -/
def pythonScript : Script := { sampleScript with id := "p1", runtime := "python" }

/-- Concrete parseable descriptors for the reload scenarios. -/
def scriptA : Script := { sampleScript with id := "a" }

def scriptC : Script := { sampleScript with id := "c" }

example : jsIncludes "message: hello" "message:" = true := by decide

example : jsIncludes "hello" "message:" = false := by decide

example : stdinPayload none = "null\n" := by decide

/-- Claim C1: the stdin-signaling handshake is claimed to fire at most
once per invocation; in the code it fires on every matching chunk.  With
payload a two-character JSON body, two stdout chunks each containing the
sentinel produce two stdin writes, and the declared guard flag
spawnedProcessMessageSent is never set. -/
theorem stdin_handshake_fires_twice :
    (execRun false (some "[]")
      [ExecEvent.stdoutData "message: one",
       ExecEvent.stdoutData "message: two"]).stdinWrites.length = 2 ∧
    (execRun false (some "[]")
      [ExecEvent.stdoutData "message: one",
       ExecEvent.stdoutData "message: two"]).spawnedProcessMessageSent = false := by
  decide

/-- Claim C2: for a registered script with the webhook flag disabled, the
trigger endpoint does answer 400, but the missing return makes it fall
through: it still invokes runScript (spawning a child) and attempts a
second response. -/
theorem trigger_webhook_disabled_still_runs :
    ((triggerHandler [sampleScript] "s1" [] "[]").responses.head?.map Prod.fst
      = some 400) ∧
    (triggerHandler [sampleScript] "s1" [] "[]").ran = [("s1", [], some "[]")] ∧
    (triggerHandler [sampleScript] "s1" [] "[]").responses.length = 2 := by
  decide

/-- Claim C3: when a run-mode invocation outlives its timeout, the child
is indeed killed, but the removeAllListeners call of the timeout handler
also detaches the run endpoint's exit listener, so the waiting caller
never receives the terminal outcome: after the forced exit, responseSent
is still false even though partial output had been captured. -/
theorem run_timeout_no_response :
    (execRun true (some "[]")
      [ExecEvent.stdoutData "partial", ExecEvent.timerFire, ExecEvent.exit]).killCalls = 1 ∧
    (execRun true (some "[]")
      [ExecEvent.stdoutData "partial", ExecEvent.timerFire, ExecEvent.exit]).consoleOutput = "partial" ∧
    (execRun true (some "[]")
      [ExecEvent.stdoutData "partial", ExecEvent.timerFire, ExecEvent.exit]).responseSent = false ∧
    (execRun true (some "[]")
      [ExecEvent.stdoutData "partial", ExecEvent.timerFire, ExecEvent.exit]).exitedReal = true := by
  decide

/-- Claim C4, counterexample: for a descriptor whose runtime is python,
the start of runScript ends in the uncaught TypeError of the null
listener attachment, not in a structured UnsupportedRuntime failure, and
no error-event handler exists that could catch a spawn failure. -/
theorem unrecognized_runtime_throws :
    runScriptSpawn pythonScript [] = StartOutcome.thrownTypeError ∧
    handlesErrorEvent = false := by
  decide

/-- Claim C4, amended: for every descriptor whose runtime is not nodejs,
no spawn is attempted but execution ends in an uncaught TypeError rather
than a structured UnsupportedRuntime error, and runScript attaches no
error-event listener, so a spawn failure is not caught either. -/
theorem unrecognized_runtime_behavior (s : Script) (context : List SpawnArg)
    (h : s.runtime ≠ "nodejs") :
    runScriptSpawn s context = StartOutcome.thrownTypeError ∧
    handlesErrorEvent = false := by
  refine ⟨?_, by decide⟩
  simp [runScriptSpawn, h]

/-- Witness for the amended C4 theorem at a concrete descriptor. -/
theorem unrecognized_runtime_behavior_w :
    runScriptSpawn { pythonScript with id := "p2" } [] = StartOutcome.thrownTypeError ∧
    handlesErrorEvent = false :=
  unrecognized_runtime_behavior { pythonScript with id := "p2" } [] (by decide)

/-- Claim C5: the code never cancels the per-invocation timer and its
kill guard tests the killed flag (whether a kill was already issued),
not whether the child still runs; a child that exited naturally before
the timer fired is therefore still sent a kill signal. -/
theorem natural_exit_then_timer_kills :
    (execRun false (some "[]") [ExecEvent.exit, ExecEvent.timerFire]).exitedReal = true ∧
    (execRun false (some "[]") [ExecEvent.exit, ExecEvent.timerFire]).spawnedProcessRunning = false ∧
    (execRun false (some "[]") [ExecEvent.exit, ExecEvent.timerFire]).killCalls = 1 := by
  decide

/-- Claim C6: on a cron-fired invocation the message argument is null,
and the stdin write performed on the sentinel chunk is the string null
followed by a newline, not the empty line: the JS concatenation of null
and a newline is truthy, so the bare-newline fallback is unreachable. -/
theorem null_message_writes_null_line :
    cronFireMessage = none ∧
    (execRun false cronFireMessage
      [ExecEvent.stdoutData "message: waiting"]).stdinWrites = ["null\n"] := by
  decide

/-- Claim C7, counterexample: the context built on a cron fire is not a
single string token; it is a one-element array wrapping a nested
one-element array. -/
theorem cron_context_not_single_token :
    cronFireContext 1700000000 ≠ [SpawnArg.str "--time=1700000000"] := by
  decide

/-- Claim C7, amended: every cron fire invokes the Executor with a
one-element argument list whose element is itself a one-element array
wrapping the time token, and with a null message payload; after Node's
per-argument string coercion the child still receives the bare token. -/
theorem cron_fire_arguments (t : Nat) (file : String) :
    cronFireContext t = [SpawnArg.strs ["--time=" ++ toString t]] ∧
    (spawnArgs file (cronFireContext t)).map spawnArgToString
      = [file, "--time=" ++ toString t] ∧
    cronFireMessage = none :=
  ⟨rfl, rfl, rfl⟩

/-- Claim C8, counterexample: updating an existing script writes only the
entrypoint file; the registry entry (hence its updated timestamp, still
100) is unchanged and no write to the .cog descriptor occurs. -/
theorem update_ignores_timestamp_and_descriptor :
    updateScriptHandler [sampleScript] "s1" "newcode"
      = ⟨200, "s1", [("./data/scripts/s1/app.js", "newcode")], [sampleScript]⟩ ∧
    ((updateScriptHandler [sampleScript] "s1" "newcode").writes.map Prod.fst).contains
      "./data/scripts/s1/.cog" = false ∧
    (updateScriptHandler [sampleScript] "s1" "newcode").scripts.map Script.updated
      = [100] := by
  decide

/-- Claim C8, amended: for every update of an existing script, the
operation rewrites the entrypoint content and answers 200 with the id,
but it neither refreshes the updated timestamp nor persists any
descriptor change: the registry and the .cog file are untouched. -/
theorem update_rewrites_entrypoint_only (scripts : List Script)
    (sid code : String) (s : Script)
    (h : scripts.find? (fun i => i.id == sid) = some s) :
    updateScriptHandler scripts sid code
      = ⟨200, s.id, [(entrypointPath s, code)], scripts⟩ := by
  unfold updateScriptHandler
  rw [h]

/-- Witness for the amended C8 theorem at a concrete registry. -/
theorem update_rewrites_entrypoint_only_w :
    updateScriptHandler [sampleScript] "s1" "code2"
      = ⟨200, sampleScript.id, [(entrypointPath sampleScript, "code2")], [sampleScript]⟩ :=
  update_rewrites_entrypoint_only [sampleScript] "s1" "code2" sampleScript (by decide)

/-- Claim C9, counterexample: with a parseable directory, then one whose
descriptor does not parse, then another parseable one, the reload loop
loads only the first script and aborts: the third is never loaded. -/
theorem reload_aborts_on_unparseable :
    reloadScripts
      [⟨"a", some (some scriptA)⟩, ⟨"b", some none⟩, ⟨"c", some (some scriptC)⟩]
      = ⟨[scriptA], [], false, []⟩ := by
  decide

/-- Claim C9, amended: a stored script whose descriptor file is missing
is skipped with a warning and loading of the remaining scripts
completes; but a stored script whose descriptor is unparseable makes
JSON.parse throw, aborting the startup load and leaving every script
after it unloaded. -/
theorem reload_skips_missing_but_aborts_on_bad :
    (∀ dirs : List StoredDir, (∀ d ∈ dirs, d.cogContent ≠ some none) →
      reloadScripts dirs
        = ⟨parsedScripts dirs, scheduledOnLoad dirs, true, missingNames dirs⟩) ∧
    (∀ (pre : List StoredDir) (e : StoredDir) (rest : List StoredDir),
      (∀ d ∈ pre, d.cogContent ≠ some none) → e.cogContent = some none →
      reloadScripts (pre ++ e :: rest)
        = ⟨parsedScripts pre, scheduledOnLoad pre, false, missingNames pre⟩) := by
  constructor
  · intro dirs h
    induction dirs with
    | nil => rfl
    | cons d rest ih =>
      have hrest : ∀ x ∈ rest, x.cogContent ≠ some none :=
        fun x hx => h x (List.mem_cons_of_mem _ hx)
      obtain ⟨nm, c⟩ := d
      match c with
      | none =>
        simp [reloadScripts, parsedScripts, scheduledOnLoad, missingNames, ih hrest]
      | some none =>
        exact absurd rfl (h ⟨nm, some none⟩ (List.mem_cons_self _ _))
      | some (some s) =>
        simp [reloadScripts, parsedScripts, scheduledOnLoad, missingNames, ih hrest]
  · intro pre e rest hpre he
    induction pre with
    | nil =>
      obtain ⟨nm, c⟩ := e
      simp only [StoredDir.cogContent] at he
      subst he
      simp [reloadScripts, parsedScripts, scheduledOnLoad, missingNames]
    | cons d pre ih =>
      have hpre2 : ∀ x ∈ pre, x.cogContent ≠ some none :=
        fun x hx => hpre x (List.mem_cons_of_mem _ hx)
      obtain ⟨nm, c⟩ := d
      match c with
      | none =>
        simp [reloadScripts, parsedScripts, scheduledOnLoad, missingNames, ih hpre2]
      | some none =>
        exact absurd rfl (hpre ⟨nm, some none⟩ (List.mem_cons_self _ _))
      | some (some s) =>
        simp [reloadScripts, parsedScripts, scheduledOnLoad, missingNames, ih hpre2]

/-- Witness for the amended C9 theorem: a missing descriptor is skipped
and loading completes; an unparseable one aborts the load. -/
theorem reload_skips_missing_but_aborts_on_bad_w :
    reloadScripts [⟨"x", none⟩, ⟨"a", some (some scriptA)⟩]
      = ⟨[scriptA], [], true, ["x"]⟩ ∧
    reloadScripts [⟨"a", some (some scriptA)⟩, ⟨"b", some none⟩]
      = ⟨[scriptA], [], false, []⟩ :=
  ⟨reload_skips_missing_but_aborts_on_bad.1
      [⟨"x", none⟩, ⟨"a", some (some scriptA)⟩] (by decide),
   reload_skips_missing_but_aborts_on_bad.2
      [⟨"a", some (some scriptA)⟩] ⟨"b", some none⟩ [] (by decide) rfl⟩

/-- Claim C10: every descriptor created through the registration endpoint
has its timeout field equal to the literal 30000, whatever the request
body (including any timeout value it may carry) contains. -/
theorem new_script_timeout_fixed (now : Nat) (id : String) (body : NewScriptBody) :
    (newScriptEntry now id body).timeout = 30000 := by
  unfold newScriptEntry
  split <;> rfl
